import Mathlib

/-!
Verification of the DrillSargeant desktop backend
(src/desktop/src-tauri/src/lib.rs) against its specification.

The Rust source defines three Tauri commands: `analyze_directory`,
`get_system_info` and `watch_directory`.  We embed the three record
shapes (`Issue`, `AnalysisSummary`, `AnalysisResult`) and the three
commands as pure Lean functions.  Rust `Result<T, String>` becomes
`Except String T`; `usize` and `u32` become `Nat`; Rust `String`
becomes Lean `String`.  `get_system_info` reads the compile-time
constants `std::env::consts::OS` and `std::env::consts::ARCH`, which we
model as explicit parameters of the embedding.  The `println!` calls
are console logging with no effect on the returned value and are
dropped from the pure embedding.
-/

namespace DrillSargeant

/-- Embeds the Rust struct `Issue` (lib.rs lines 11-22).  `line_number`
is `u32` in the source; all values constructed in the program are tiny,
so `Nat` models it faithfully. -/
structure Issue where
  id : String
  title : String
  description : String
  severity : String
  issue_type : String
  file_path : String
  line_number : Nat
  code_snippet : String
  recommendation : String
deriving DecidableEq, Repr

/-- Embeds the Rust struct `AnalysisSummary` (lib.rs lines 24-29). -/
structure AnalysisSummary where
  total_issues : Nat
  high_severity : Nat
  medium_severity : Nat
  low_severity : Nat
deriving DecidableEq, Repr

/-- Embeds the Rust struct `AnalysisResult` (lib.rs lines 3-9). -/
structure AnalysisResult where
  total_files : Nat
  analyzed_files : Nat
  issues : List Issue
  summary : AnalysisSummary
deriving DecidableEq, Repr

/-- Embeds the Rust command `analyze_directory` (lib.rs lines 32-86):
it builds a hardcoded three-element issue list, derives the summary
counts from that list by filtering on the `severity` field, and returns
`Ok` with hardcoded file counts 127 / 89.  The `path` argument is only
logged, never used. -/
def analyze_directory (path : String) : Except String AnalysisResult :=
  let _ := path
  let issues : List Issue := [
    { id := "security_1",
      title := "Potential XSS Vulnerability",
      description := "Direct innerHTML assignment without sanitization",
      severity := "high",
      issue_type := "security",
      file_path := "src/components/App.tsx",
      line_number := 42,
      code_snippet := "element.innerHTML = userInput;",
      recommendation := "Use textContent or sanitize input before assignment" },
    { id := "performance_1",
      title := "Inefficient CSS Selector",
      description := "Complex CSS selector may impact performance",
      severity := "medium",
      issue_type := "performance",
      file_path := "src/styles/main.css",
      line_number := 15,
      code_snippet := "div > ul > li:nth-child(odd) > a[href*=example]",
      recommendation := "Consider using CSS classes for better performance" },
    { id := "quality_1",
      title := "Unused Variable",
      description := "Variable declared but never used",
      severity := "low",
      issue_type := "quality",
      file_path := "src/utils/helpers.js",
      line_number := 8,
      code_snippet := "const unusedVar = 'not used';",
      recommendation := "Remove unused variables to improve code clarity" }
  ]
  let summary : AnalysisSummary :=
    { total_issues := issues.length,
      high_severity := (issues.filter (fun i => i.severity == "high")).length,
      medium_severity := (issues.filter (fun i => i.severity == "medium")).length,
      low_severity := (issues.filter (fun i => i.severity == "low")).length }
  Except.ok
    { total_files := 127,
      analyzed_files := 89,
      issues := issues,
      summary := summary }

/-- Embeds the Rust command `get_system_info` (lib.rs lines 89-96).
The source interpolates the compile-time constants
`std::env::consts::OS` and `std::env::consts::ARCH` into a fixed
format string; the embedding takes those two host constants as
parameters. -/
def get_system_info (os arch : String) : Except String String :=
  Except.ok
    ("DrillSargeant Desktop v1.0\nPlatform: " ++ os ++
      "\nArchitecture: " ++ arch)

/-- Embeds the Rust command `watch_directory` (lib.rs lines 99-103):
logs the path and returns `Ok` of an acknowledgment string built from
the input. -/
def watch_directory (path : String) : Except String String :=
  Except.ok ("Started monitoring: " ++ path)

/-- Substring containment on Lean strings, phrased on the underlying
character lists: `t` occurs contiguously inside `s`. -/
def strContains (s t : String) : Prop :=
  ∃ l r, s.data = l ++ t.data ++ r

end DrillSargeant

namespace DrillSargeant

/-- Claim C1: for every input path string (including the empty string,
a non-existent path, or a path naming a file), `analyze_directory`
returns a successful `AnalysisResult` whose issues list has exactly 3
elements and whose summary has `total_issues = 3`, `high_severity = 1`,
`medium_severity = 1`, `low_severity = 1`. -/
theorem analyze_directory_three_issues (path : String) :
    ∃ r, analyze_directory path = Except.ok r ∧
      r.issues.length = 3 ∧
      r.summary.total_issues = 3 ∧
      r.summary.high_severity = 1 ∧
      r.summary.medium_severity = 1 ∧
      r.summary.low_severity = 1 := by
  refine ⟨_, rfl, ?_, ?_, ?_, ?_, ?_⟩ <;> decide

/-- Claim C2: for every input path string, the `AnalysisResult`
returned by `analyze_directory` has `total_files = 127` and
`analyzed_files = 89`; these fields do not depend on the input. -/
theorem analyze_directory_file_counts (path : String) :
    ∃ r, analyze_directory path = Except.ok r ∧
      r.total_files = 127 ∧ r.analyzed_files = 89 := by
  exact ⟨_, rfl, rfl, rfl⟩

/-- Claim C3: for every input (including malformed or empty path
strings) none of the three commands ever returns the `Except.error`
branch of its declared result type; every call path returns `ok`. -/
theorem commands_never_fail (path os arch : String) :
    (∃ r, analyze_directory path = Except.ok r) ∧
    (∃ s, get_system_info os arch = Except.ok s) ∧
    (∃ s, watch_directory path = Except.ok s) :=
  ⟨⟨_, rfl⟩, ⟨_, rfl⟩, ⟨_, rfl⟩⟩

/-- Claim C4: `analyze_directory` is input-independent: for any two
input path strings the returned values are equal in every field; the
returned value is a constant. -/
theorem analyze_directory_input_independent (p₁ p₂ : String) :
    analyze_directory p₁ = analyze_directory p₂ := rfl

/-- Claim C5: in every `AnalysisResult` returned by
`analyze_directory`, `summary.total_issues` equals the length of the
issues list and the sum of the three severity counts, and each
severity count equals the number of issues whose `severity` field is
the corresponding string. -/
theorem analyze_directory_summary_consistent (path : String) :
    ∃ r, analyze_directory path = Except.ok r ∧
      r.summary.total_issues = r.issues.length ∧
      r.summary.total_issues =
        r.summary.high_severity + r.summary.medium_severity +
          r.summary.low_severity ∧
      r.summary.high_severity =
        (r.issues.filter (fun i => i.severity == "high")).length ∧
      r.summary.medium_severity =
        (r.issues.filter (fun i => i.severity == "medium")).length ∧
      r.summary.low_severity =
        (r.issues.filter (fun i => i.severity == "low")).length := by
  refine ⟨_, rfl, ?_, ?_, ?_, ?_, ?_⟩ <;> decide

/-- Claim C6: the string returned by `get_system_info` contains the
literal substring "DrillSargeant Desktop v1.0", the host operating
system name, and the host CPU architecture name (the runtime OS and
ARCH constants, taken here as parameters). -/
theorem get_system_info_contents (os arch : String) :
    ∃ info, get_system_info os arch = Except.ok info ∧
      strContains info "DrillSargeant Desktop v1.0" ∧
      strContains info os ∧
      strContains info arch := by
  refine ⟨_, rfl, ?_, ?_, ?_⟩
  · refine ⟨[], ("\nPlatform: " ++ os ++ "\nArchitecture: " ++ arch).data, ?_⟩
    simp [String.data_append, List.append_assoc]
  · refine ⟨"DrillSargeant Desktop v1.0\nPlatform: ".data,
      ("\nArchitecture: " ++ arch).data, ?_⟩
    simp [String.data_append, List.append_assoc]
  · refine ⟨("DrillSargeant Desktop v1.0\nPlatform: " ++ os ++
      "\nArchitecture: ").data, [], ?_⟩
    simp [String.data_append, List.append_assoc]

/-- Claim C7: for every input path string `X`, `watch_directory X`
returns `ok` of a string that contains both the literal substring
"Started monitoring" and the input `X` itself. -/
theorem watch_directory_contents (path : String) :
    ∃ s, watch_directory path = Except.ok s ∧
      strContains s "Started monitoring" ∧
      strContains s path := by
  refine ⟨_, rfl, ?_, ?_⟩
  · refine ⟨[], ": ".data ++ path.data, ?_⟩
    have h : "Started monitoring: ".data =
        "Started monitoring".data ++ ": ".data := by decide
    simp [String.data_append, h, List.append_assoc]
  · exact ⟨"Started monitoring: ".data, [],
      by simp [String.data_append]⟩

/-- Claim C8: every `Issue` in the list returned by
`analyze_directory` has a `severity` field in the set
\x7b"high", "medium", "low"\x7d and an `issue_type` field in the set
\x7b"security", "performance", "quality"\x7d. -/
theorem analyze_directory_closed_sets (path : String) :
    ∃ r, analyze_directory path = Except.ok r ∧
      r.issues.all (fun i =>
        (i.severity == "high" || i.severity == "medium" ||
          i.severity == "low") &&
        (i.issue_type == "security" || i.issue_type == "performance" ||
          i.issue_type == "quality")) = true := by
  exact ⟨_, rfl, by decide⟩

/-- Claim C9: the three `Issue` records returned by
`analyze_directory` have pairwise-distinct `id` fields ("security_1",
"performance_1", "quality_1"), and every issue has
`line_number ≥ 1`. -/
theorem analyze_directory_ids_distinct (path : String) :
    ∃ r, analyze_directory path = Except.ok r ∧
      r.issues.map Issue.id = ["security_1", "performance_1", "quality_1"] ∧
      (r.issues.map Issue.id).Nodup ∧
      r.issues.all (fun i => decide (1 ≤ i.line_number)) = true := by
  refine ⟨_, rfl, ?_, ?_, ?_⟩ <;> decide

/-- Claim C10: for every input path string `p`, `watch_directory p`
returns exactly the string "Started monitoring: " concatenated with
`p`. -/
theorem watch_directory_exact (path : String) :
    watch_directory path = Except.ok ("Started monitoring: " ++ path) := rfl

end DrillSargeant
